/-
Verification of the mock backend core of the X-chat repository
(`src/mock_api.py`): the data-fetch cache, the stateless chart generator,
the insight cache, and the chat task manager (submit / poll / get-result).

The Python source is shallowly embedded below.  Modelling conventions:

* Python dicts (the data cache `_DATA_CACHE`, the insight cache
  `_INSIGHT_CACHE`, the task registry `_CHAT_TASKS`) become association
  lists with `dictLookup` / `dictInsert` (insertion order preserved,
  in-place overwrite on an existing key — the same observable behaviour
  as a Python dict).
* A pandas `DataFrame` becomes `Df`: its ordered list of named columns.
  Cell payloads are opaque to every operation modelled here (only column
  names are ever inspected), so cells are represented by `Int`.
  `DataFrame.copy()` is the identity under value semantics.
* Randomness (`np.random` inside `MockDatabase.check_for_updates` and
  `_generate_data`) and the CPython object identity `id(df)` are inputs:
  an `Oracle` carries the outcome of the update check (`none` = no
  update, `some newDb` = the 10% regeneration fired, producing `newDb`)
  and the identity token used for the insight-cache key.
* `time.sleep` latency simulation and wall-clock reads have no effect on
  any value except the stored `created_at` field, which is passed in as
  a `now : Nat` argument to `submit_chat_request`.
* `uuid.uuid4()` request ids are modelled as `Nat` arguments supplied by
  the caller; uuid freshness becomes an explicit distinctness hypothesis
  where a theorem needs it.
* Plotly figure construction followed by JSON serialization becomes the
  `ChartSpec` datatype: either the empty spec (the initial empty dict
  stored under the spec key) or a figure with a layout title and a list
  of traces.
-/
import Mathlib

set_option linter.unusedVariables false

namespace XChat

/-! ## Association-list model of Python dicts -/

def dictLookup {κ α : Type} [DecidableEq κ] : List (κ × α) → κ → Option α
  | [], _ => none
  | (k', v') :: m, k => if k' = k then some v' else dictLookup m k

def dictInsert {κ α : Type} [DecidableEq κ] : List (κ × α) → κ → α → List (κ × α)
  | [], k, v => [(k, v)]
  | (k', v') :: m, k, v => if k' = k then (k, v) :: m else (k', v') :: dictInsert m k v

/-! ## Data model: dataframes and the mock database -/

/-- A dataframe: ordered named columns with opaque cell payloads. -/
def Df : Type := List (String × List Int)

instance : DecidableEq Df := by unfold Df; exact inferInstance

/-- The two snapshots held by `MockDatabase` (`_sales_data`, `_geo_data`).
The snapshots produced by `_generate_data` are random; the state is kept
abstract and concrete demo values are used in witnesses. -/
structure Db where
  sales : Df
  geo : Df
deriving DecidableEq

/-- Outcome of the randomness consumed by one backend call:
`upd = some newDb` means `check_for_updates` fired (10% branch) and
`_generate_data` produced `newDb`; `dfId` is the `id(df)` token used in
`_generate_final_result`'s insight-cache key. -/
structure Oracle where
  upd : Option Db
  dfId : Nat
deriving DecidableEq

def col_names (df : Df) : List String := df.map (fun c => c.1)

def col_values (df : Df) (c : String) : List Int := (dictLookup df c).getD []

/-- The `if raw_data_source == "sales_table" ... elif ... else pd.DataFrame()`
dispatch in `fetch_data`. -/
def source_frame (db : Db) (raw_data_source : String) : Df :=
  if raw_data_source = "sales_table" then db.sales
  else if raw_data_source = "user_geo_table" then db.geo
  else []

/-- Lines 93-96 of `fetch_data`: `if columns:` then keep the requested
columns that exist, and only apply the projection `df = df[valid_cols]`
when `valid_cols` is non-empty.  `None` and `[]` both skip projection. -/
def project_columns (df : Df) (columns : Option (List String)) : Df :=
  match columns with
  | none => df
  | some cols =>
    if cols = [] then df
    else if cols.filter (fun c => (col_names df).contains c) = [] then df
    else (cols.filter (fun c => (col_names df).contains c)).map (fun c => (c, col_values df c))

/-- Mirrors the pipe-separated f-string key of `fetch_data`: source name,
dash-joined column list, then the printed forms of filters, groupby and
aggregation.  Those last three arguments only ever reach their string
representation, so they are modelled as strings. -/
def cache_key (raw_data_source : String) (columns : Option (List String))
    (filters groupby aggregation : String) : String :=
  raw_data_source ++ "|" ++ String.intercalate "-" (columns.getD []) ++ "|"
    ++ filters ++ "|" ++ groupby ++ "|" ++ aggregation

structure FetchResult where
  df : Df
  db : Db
  dataCache : List (String × Df)
deriving DecidableEq

/-- Model of `fetch_data` (mock of the data-fetch endpoint).  `upd` is the outcome of
`db.check_for_updates()`.  On a hit the stored frame is returned
(`.copy()` = identity here); otherwise the named snapshot of the
(possibly regenerated) database is projected, stored and returned. -/
def fetch_data (upd : Option Db) (raw_data_source : String)
    (columns : Option (List String)) (filters groupby aggregation : String)
    (db : Db) (dataCache : List (String × Df)) : FetchResult :=
  let key := cache_key raw_data_source columns filters groupby aggregation
  match upd with
  | none =>
    match dictLookup dataCache key with
    | some cached => ⟨cached, db, dataCache⟩
    | none =>
      let df := project_columns (source_frame db raw_data_source) columns
      ⟨df, db, dictInsert dataCache key df⟩
  | some newDb =>
    let df := project_columns (source_frame newDb raw_data_source) columns
    ⟨df, newDb, dictInsert dataCache key df⟩

/-! ## Chart generation -/

/-- One plotly trace: `go.Scatter(x=…, y=…, mode='lines', name=col)` or
`go.Scattergeo(lon=…, lat=…, mode='markers', …)`. -/
inductive TraceData where
  | scatter (x y : List Int) (name : String)
  | scattergeo (lon lat : List Int)
deriving DecidableEq

structure Fig where
  title : String
  traces : List TraceData
deriving DecidableEq

/-- The JSON value stored under `"spec"`: the initial empty dict, or the
serialized figure. -/
inductive ChartSpec where
  | empty
  | fig (f : Fig)
deriving DecidableEq

structure ChartResult where
  spec : ChartSpec
deriving DecidableEq

/-- Model of the `config` dict of `generate_universal_chart`; absent keys are `none`. -/
structure ChartConfig where
  title : Option String
  x : Option String
  y : Option (List String)
  lat : Option String
  lon : Option String
deriving DecidableEq

/-- Model of `generate_universal_chart` (mock of the chart endpoint).
Stateless; never raises — every branch returns a `ChartResult`. -/
def generate_universal_chart (chart_type : String) (data : Df)
    (config : ChartConfig) : ChartResult :=
  if chart_type = "line" then
    let y_cols := config.y.getD []
    let x_col := config.x.getD "Date"
    let traces :=
      (y_cols.filter (fun col =>
          (col_names data).contains col && (col_names data).contains x_col)).map
        (fun col => TraceData.scatter (col_values data x_col) (col_values data col) col)
    ⟨ChartSpec.fig ⟨config.title.getD "Line Chart", traces⟩⟩
  else if chart_type = "map" then
    let lat_col := config.lat.getD "lat"
    let lon_col := config.lon.getD "lon"
    if (col_names data).contains lat_col && (col_names data).contains lon_col then
      ⟨ChartSpec.fig ⟨config.title.getD "Map Distribution",
        [TraceData.scattergeo (col_values data lon_col) (col_values data lat_col)]⟩⟩
    else ⟨ChartSpec.empty⟩
  else ⟨ChartSpec.fig ⟨"Unknown Chart Type", []⟩⟩

/-! ## Insight generation -/

/-- Model of `generate_chart_insight`: insight-cache lookup, else a canned string
selected by `chart_type`, stored under the key.  Returns the insight and
the updated `_INSIGHT_CACHE`. -/
def generate_chart_insight (data_hash_key chart_type : String)
    (insightCache : List (String × String)) : String × List (String × String) :=
  match dictLookup insightCache data_hash_key with
  | some v => (v, insightCache)
  | none =>
    let insight :=
      if chart_type = "line" then
        "Generated from raw sales_table. Product B remains strong compared to others."
      else if chart_type = "map" then
        "Generated from user_geo_table. Dense clustering near metropolitan areas."
      else "No specific insight available for this data."
    (insight, dictInsert insightCache data_hash_key insight)

/-! ## Chat task manager -/

/-- One planned progress step `(icon, message, delay)`; the simulated
sleep duration is kept in tenths of a second. -/
structure Step where
  icon : String
  msg : String
  delay : Nat
deriving DecidableEq

structure TraceEntry where
  ttype : String
  label : String
  duration_ms : Nat
  detail : Option String
deriving DecidableEq

structure SourceRef where
  title : String
  url : String
  snippet : String
deriving DecidableEq

/-- One content block of the final response. -/
inductive Block where
  | text (content : String)
  | plotly (spec : ChartSpec) (insight : String)
  | reference (sources : List SourceRef)
deriving DecidableEq

structure FinalResult where
  blocks : List Block
  trace : List TraceEntry
deriving DecidableEq

/-- One `_CHAT_TASKS` entry.  `status` is the stored string exactly as in
the source ("pending" on creation, later "complete"). -/
structure Task where
  status : String
  step_index : Nat
  type : String
  prompt : String
  created_at : Nat
  steps : List Step
  final_result : Option FinalResult
deriving DecidableEq

/-- The whole mutable backend state: `db` (the `MockDatabase` instance),
`_DATA_CACHE`, `_INSIGHT_CACHE`, `_CHAT_TASKS`. -/
structure SysState where
  db : Db
  dataCache : List (String × Df)
  insightCache : List (String × String)
  tasks : List (Nat × Task)
deriving DecidableEq

def chart_keywords : List String := ["trend", "趨勢", "圖", "chart", "sales"]
def map_keywords : List String := ["map", "地圖", "分佈", "distribution"]
def rag_keywords : List String := ["policy", "document", "規定", "文件", "rag", "search"]

/-- Tests whether `pat` starts the character list. -/
def charListStarts : List Char → List Char → Bool
  | _, [] => true
  | [], _ :: _ => false
  | c :: s, p :: ps => c = p && charListStarts s ps

/-- Tests whether `pat` occurs somewhere in the list (Python substring test). -/
def charListHas (pat : List Char) : List Char → Bool
  | [] => charListStarts [] pat
  | c :: s => charListStarts (c :: s) pat || charListHas pat s

/-- Python substring test `pat in s`. -/
def strContains (s pat : String) : Bool := charListHas pat.toList s.toList

/-- Python `str.lower()` (character-wise, which agrees with CPython on
every keyword involved here). -/
def lower (s : String) : String := String.mk (s.toList.map Char.toLower)

/-- The `want_chart` / `want_map` / `want_rag` intent dispatch at the top
of `submit_chat_request`. -/
def classify_intent (prompt : String) : String :=
  let want_chart := chart_keywords.any (fun k => strContains (lower prompt) k)
  let want_map := map_keywords.any (fun k => strContains (lower prompt) k)
  let want_rag := rag_keywords.any (fun k => strContains (lower prompt) k)
  if want_chart then "chart"
  else if want_map then "map"
  else if want_rag then "rag"
  else "general"

/-- The `if task_type == …` step-plan assignment in `submit_chat_request`. -/
def task_steps (task_type : String) : List Step :=
  if task_type = "chart" then
    [⟨"🧠", "Understanding your question...", 3⟩,
     ⟨"🔧", "Translating to Data API query...", 4⟩,
     ⟨"🗄️", "Fetching data from Cache/DB [POST /v1/data/fetch]...", 8⟩,
     ⟨"🎨", "Rendering Stateless Chart [POST /v1/charts/generate]...", 2⟩,
     ⟨"🧠", "Requesting Chart Insight [Caching enabled]...", 5⟩]
  else if task_type = "map" then
    [⟨"🧠", "Understanding location intent...", 3⟩,
     ⟨"🔧", "Translating to Data API query...", 4⟩,
     ⟨"🗄️", "Fetching data from Cache/DB [POST /v1/data/fetch]...", 8⟩,
     ⟨"🎨", "Rendering Stateless Map [POST /v1/charts/generate]...", 2⟩,
     ⟨"🧠", "Requesting Map Insight [Caching enabled]...", 5⟩]
  else if task_type = "rag" then
    [⟨"🧠", "Analyzing query for search intent...", 4⟩,
     ⟨"🗄️", "Embedding query and searching Vector DB...", 12⟩,
     ⟨"📄", "Retrieving relevant document chunks...", 3⟩,
     ⟨"🧠", "Synthesizing answer from sources...", 15⟩]
  else
    [⟨"🧠", "Searching knowledge base...", 5⟩,
     ⟨"🤖", "Routing to general-answer sub-agent", 6⟩]

/-- Model of `submit_chat_request` (mock of the submit endpoint).  `request_id`
is the fresh `uuid4`, `now` the `time.time()` reading.  `chat_id` and
`user_id` are accepted and ignored, as in the source. -/
def submit_chat_request (now request_id : Nat) (prompt chat_id user_id : String)
    (st : SysState) : SysState :=
  let task_type := classify_intent prompt
  { st with
      tasks := dictInsert st.tasks request_id
        ⟨"pending", 0, task_type, prompt, now, task_steps task_type, none⟩ }

structure BuildOut where
  res : FinalResult
  db : Db
  dataCache : List (String × Df)
  insightCache : List (String × String)
deriving DecidableEq

/-- The body of `_generate_final_result`: dispatch on the task type,
build the block list and trace, threading the backend stores touched by
`fetch_data` / `generate_chart_insight`.  The `df is not _DATA_CACHE.get(…)`
guard in the source is always `True` because `fetch_data` returns a fresh
copy on both paths, so the insight key is always the `id(df)`-based one;
`id(df)` is the oracle's `dfId` token. -/
def build_result (ora : Oracle) (task : Task) (db : Db)
    (dataCache : List (String × Df)) (insightCache : List (String × String)) : BuildOut :=
  if task.type = "chart" then
    let fr := fetch_data ora.upd "sales_table"
      (some ["Date", "Product A", "Product B", "Product C"]) "None" "None" "None" db dataCache
    let chart_res := generate_universal_chart "line" fr.df
      ⟨some "📈 30-Day Sales Trend", some "Date",
       some ["Product A", "Product B", "Product C"], none, none⟩
    let insight_key := "sales_insight_" ++ toString ora.dfId
    let ins := generate_chart_insight insight_key "line" insightCache
    ⟨⟨[Block.text ("Here is the product trend analysis for your query: *'" ++ task.prompt ++ "'*"),
       Block.plotly chart_res.spec ins.1,
       Block.text "Notice how fast it loads if you ask again (Data & Insight Cache Hit)!"],
      [⟨"llm_call", "Intent detection", 310, none⟩,
       ⟨"tool_call", "fetch_data()", 850, some "Called POST /v1/data/fetch"⟩,
       ⟨"tool_call", "generate_universal_chart()", 120, some "Stateless rendering"⟩,
       ⟨"llm_call", "generate_chart_insight()", 940, some "Insight Generation (Cached)"⟩]⟩,
     fr.db, fr.dataCache, ins.2⟩
  else if task.type = "map" then
    let fr := fetch_data ora.upd "user_geo_table" (some ["lat", "lon"]) "None" "None" "None" db dataCache
    let chart_res := generate_universal_chart "map" fr.df
      ⟨some "🗺️ User Geographic Distribution", none, none, some "lat", some "lon"⟩
    let insight_key := "geo_insight_" ++ toString ora.dfId
    let ins := generate_chart_insight insight_key "map" insightCache
    ⟨⟨[Block.text ("Here is the user geographic distribution for: *'" ++ task.prompt ++ "'*"),
       Block.plotly chart_res.spec ins.1],
      [⟨"llm_call", "Intent detection", 295, none⟩,
       ⟨"tool_call", "fetch_data()", 750, some "Called POST /v1/data/fetch"⟩,
       ⟨"tool_call", "generate_universal_chart()", 100, some "Stateless rendering"⟩,
       ⟨"llm_call", "generate_chart_insight()", 810, some "Insight Generation (Cached)"⟩]⟩,
     fr.db, fr.dataCache, ins.2⟩
  else if task.type = "rag" then
    ⟨⟨[Block.text ("Based on the internal knowledge base, here is the information regarding: *'" ++ task.prompt ++ "'*"),
       Block.text "According to the **2025 Employee Handbook** and the **Remote Work Policy**, employees are allowed up to 3 days of remote work per week with manager approval. Core hours are 10 AM to 3 PM.",
       Block.reference
         [⟨"2025 Employee Handbook (v2.1)", "https://wiki.example.com/handbook",
           "...core hours for all employees are 10:00 AM to 3:00 PM local time..."⟩,
          ⟨"Remote Work Policy", "https://wiki.example.com/remote-policy",
           "...up to 3 days of remote work per week may be granted subject to manager approval..."⟩]],
      [⟨"llm_call", "Intent detection (RAG)", 210, none⟩,
       ⟨"tool_call", "vector_search()", 1150, some "Found 2 relevant chunks"⟩,
       ⟨"llm_call", "Answer Synthesis", 1850, some "Generated using retrieved context"⟩]⟩,
     db, dataCache, insightCache⟩
  else
    ⟨⟨[Block.text ("I received your message: *'" ++ task.prompt ++ "'*."),
       Block.text "Try asking about **product trends** or **user distribution map** to see the caching API in action."],
      [⟨"llm_call", "Intent detection", 280, none⟩,
       ⟨"sub_agent", "General-answer sub-agent", 610, none⟩]⟩,
     db, dataCache, insightCache⟩

/-- Model of `_generate_final_result`: read the task, build the response, store it
in `final_result`.  The `none` branch is unreachable from
`poll_chat_status` (the source would raise `KeyError` there). -/
def generate_final_result (ora : Oracle) (request_id : Nat) (st : SysState) : SysState :=
  match dictLookup st.tasks request_id with
  | none => st
  | some task =>
    let b := build_result ora task st.db st.dataCache st.insightCache
    ⟨b.db, b.dataCache, b.insightCache,
     dictInsert st.tasks request_id { task with final_result := some b.res }⟩

structure PollResp where
  status : String
  message : String
deriving DecidableEq

/-- Model of `poll_chat_status` (mock of the status-poll endpoint).
In the source the task dict is mutated in place (`step_index += 1`, then
possibly `status = "complete"`) before `_generate_final_result` runs and
before the `"processing"` response is returned; here the updated task is
written back once, with the same net effect. -/
def poll_chat_status (ora : Oracle) (request_id : Nat) (st : SysState) :
    PollResp × SysState :=
  match dictLookup st.tasks request_id with
  | none => (⟨"error", "Invalid request ID"⟩, st)
  | some task =>
    if task.status = "complete" then (⟨"complete", "Done"⟩, st)
    else
      match task.steps[task.step_index]? with
      | some step =>
        let finishing := decide (task.step_index + 1 ≥ task.steps.length)
        let task' :=
          if finishing then
            { task with step_index := task.step_index + 1, status := "complete" }
          else { task with step_index := task.step_index + 1 }
        let st' := { st with tasks := dictInsert st.tasks request_id task' }
        let st'' := if finishing then generate_final_result ora request_id st' else st'
        (⟨"processing", step.icon ++ " " ++ step.msg⟩, st'')
      | none => (⟨"complete", "Done"⟩, st)

/-- Response of `get_chat_result`: either of the two error dicts, or the
task's stored `final_result` value. -/
inductive ResultResp where
  | invalidId
  | notComplete
  | result (r : Option FinalResult)
deriving DecidableEq

/-- Model of `get_chat_result` (mock of the result endpoint).
A pure reader: it takes the state and returns no updated state, which is
the embedding of "modifies nothing". -/
def get_chat_result (st : SysState) (request_id : Nat) : ResultResp :=
  match dictLookup st.tasks request_id with
  | none => ResultResp.invalidId
  | some task =>
    if task.status ≠ "complete" then ResultResp.notComplete
    else ResultResp.result task.final_result

/-- A sequence of polls on one request id; each element of `oras` is the
randomness consumed by one `poll_chat_status` call. -/
def poll_seq (request_id : Nat) : List Oracle → SysState → SysState
  | [], st => st
  | ora :: rest, st => poll_seq request_id rest (poll_chat_status ora request_id st).2

/-- Status of a task as seen in the registry. -/
def task_status (st : SysState) (request_id : Nat) : Option String :=
  (dictLookup st.tasks request_id).map (fun t => t.status)

/-! ## Concrete demo values (used by witnesses) -/

/-- A database snapshot with the column structure `_generate_data` always
produces (concrete cell payloads). -/
def demo_db : Db :=
  ⟨[("Date", [1, 2]), ("Product A", [3, 4]), ("Product B", [5, 6]), ("Product C", [7, 8])],
   [("lat", [25]), ("lon", [121])]⟩

def demo_state : SysState := ⟨demo_db, [], [], []⟩

/-- Oracle for a poll during which `check_for_updates` does not fire. -/
def demo_oracle : Oracle := ⟨none, 7⟩

/-! ## Dictionary lemmas -/

theorem dictLookup_insert_self {κ α : Type} [DecidableEq κ] (m : List (κ × α)) (k : κ) (v : α) :
    dictLookup (dictInsert m k v) k = some v := by
  induction m with
  | nil => simp [dictInsert, dictLookup]
  | cons hd tl ih =>
    obtain ⟨k', v'⟩ := hd
    by_cases h : k' = k <;> simp [dictInsert, dictLookup, h, ih]

theorem dictLookup_insert_ne {κ α : Type} [DecidableEq κ] (m : List (κ × α)) (k k' : κ) (v : α)
    (h : k ≠ k') : dictLookup (dictInsert m k' v) k = dictLookup m k := by
  induction m with
  | nil => simp [dictInsert, dictLookup, Ne.symm h]
  | cons hd tl ih =>
    obtain ⟨k'', v''⟩ := hd
    by_cases h2 : k'' = k' <;> by_cases h3 : k'' = k <;>
      simp_all [dictInsert, dictLookup]

theorem dictInsert_insert {κ α : Type} [DecidableEq κ] (m : List (κ × α)) (k : κ) (v w : α) :
    dictInsert (dictInsert m k v) k w = dictInsert m k w := by
  induction m with
  | nil => simp [dictInsert]
  | cons hd tl ih =>
    obtain ⟨k', v'⟩ := hd
    by_cases h : k' = k <;> simp [dictInsert, h, ih]

theorem dictInsert_eq_self {κ α : Type} [DecidableEq κ] {m : List (κ × α)} {k : κ} {v : α}
    (h : dictLookup m k = some v) : dictInsert m k v = m := by
  induction m with
  | nil => simp [dictLookup] at h
  | cons hd tl ih =>
    obtain ⟨k', v'⟩ := hd
    by_cases h2 : k' = k
    · subst h2
      simp [dictLookup] at h
      simp [dictInsert, h]
    · simp [dictLookup, h2] at h
      simp [dictInsert, h2, ih h]

theorem mem_of_dictLookup {κ α : Type} [DecidableEq κ] {m : List (κ × α)} {k : κ} {v : α}
    (h : dictLookup m k = some v) : (k, v) ∈ m := by
  induction m with
  | nil => simp [dictLookup] at h
  | cons hd tl ih =>
    obtain ⟨k', v'⟩ := hd
    by_cases h2 : k' = k
    · subst h2
      simp [dictLookup] at h
      simp [h]
    · simp [dictLookup, h2] at h
      exact List.mem_cons_of_mem _ (ih h)

theorem mem_dictInsert {κ α : Type} [DecidableEq κ] {m : List (κ × α)} {k : κ} {v : α}
    {p : κ × α} (h : p ∈ dictInsert m k v) : p = (k, v) ∨ p ∈ m := by
  induction m with
  | nil => simpa [dictInsert] using h
  | cons hd tl ih =>
    obtain ⟨k', v'⟩ := hd
    by_cases h2 : k' = k
    · simp [dictInsert, h2] at h
      rcases h with h | h
      · exact Or.inl (by simp [h])
      · exact Or.inr (List.mem_cons_of_mem _ h)
    · simp [dictInsert, h2] at h
      rcases h with h | h
      · exact Or.inr (by simp [h])
      · rcases ih h with h3 | h3
        · exact Or.inl h3
        · exact Or.inr (List.mem_cons_of_mem _ h3)

/-! ## One-step characterizations of `poll_chat_status` -/

theorem poll_of_unknown (ora : Oracle) (rid : Nat) (st : SysState)
    (h : dictLookup st.tasks rid = none) :
    poll_chat_status ora rid st = (⟨"error", "Invalid request ID"⟩, st) := by
  simp [poll_chat_status, h]

theorem poll_of_complete (ora : Oracle) (rid : Nat) (st : SysState) (t : Task)
    (h : dictLookup st.tasks rid = some t) (hc : t.status = "complete") :
    poll_chat_status ora rid st = (⟨"complete", "Done"⟩, st) := by
  simp [poll_chat_status, h, hc]

/-- A poll that advances the cursor without exhausting the plan. -/
theorem poll_advance (ora : Oracle) (rid : Nat) (st : SysState) (t : Task) (step : Step)
    (h : dictLookup st.tasks rid = some t) (hs : ¬ t.status = "complete")
    (hstep : t.steps[t.step_index]? = some step) (hlt : t.step_index + 1 < t.steps.length) :
    poll_chat_status ora rid st =
      (⟨"processing", step.icon ++ " " ++ step.msg⟩,
       { st with tasks := dictInsert st.tasks rid { t with step_index := t.step_index + 1 } }) := by
  have hfin : ¬ (t.step_index + 1 ≥ t.steps.length) := by omega
  simp [poll_chat_status, h, hs, hstep, hfin]

/-- A poll that advances past the last step: the caller still sees
`processing` with the last step's label, while the stored task flips to
`complete` and the final result is synthesized. -/
theorem poll_completes (ora : Oracle) (rid : Nat) (st : SysState) (t : Task) (step : Step)
    (h : dictLookup st.tasks rid = some t) (hs : ¬ t.status = "complete")
    (hstep : t.steps[t.step_index]? = some step) (hlast : t.step_index + 1 = t.steps.length) :
    poll_chat_status ora rid st =
      (⟨"processing", step.icon ++ " " ++ step.msg⟩,
       let tC : Task := { t with step_index := t.step_index + 1, status := "complete" }
       let b := build_result ora tC st.db st.dataCache st.insightCache
       ⟨b.db, b.dataCache, b.insightCache,
        dictInsert st.tasks rid { tC with final_result := some b.res }⟩) := by
  have hfin : t.step_index + 1 ≥ t.steps.length := le_of_eq hlast.symm
  simp [poll_chat_status, h, hs, hstep, hfin, generate_final_result,
    dictLookup_insert_self, dictInsert_insert]

/-- Lemma: `_generate_final_result` touches only the entry it is called on. -/
theorem gen_lookup_other (ora : Oracle) (rid2 : Nat) (st : SysState) (rid : Nat)
    (hne : rid ≠ rid2) :
    dictLookup (generate_final_result ora rid2 st).tasks rid = dictLookup st.tasks rid := by
  unfold generate_final_result
  cases hl : dictLookup st.tasks rid2 with
  | none => rfl
  | some task => simp [dictLookup_insert_ne _ _ _ _ hne]

/-- A poll on one id leaves every other task entry untouched. -/
theorem poll_lookup_other (ora : Oracle) (rid2 : Nat) (st : SysState) (rid : Nat)
    (hne : rid ≠ rid2) :
    dictLookup (poll_chat_status ora rid2 st).2.tasks rid = dictLookup st.tasks rid := by
  unfold poll_chat_status
  cases hl : dictLookup st.tasks rid2 with
  | none => rfl
  | some task =>
    by_cases hc : task.status = "complete"
    · simp [hc]
    · cases hstep : task.steps[task.step_index]? with
      | none => simp [hc, hstep]
      | some step =>
        by_cases hf : task.step_index + 1 ≥ task.steps.length
        · simp only [hc, if_false, hstep, hf, if_true]
          simp [hc, hf, gen_lookup_other ora rid2 _ rid hne, dictLookup_insert_ne _ _ _ _ hne]
        · simp [hc, hstep, hf, dictLookup_insert_ne _ _ _ _ hne]

/-! ## Poll sequences -/

theorem poll_seq_append (rid : Nat) (a b : List Oracle) (st : SysState) :
    poll_seq rid (a ++ b) st = poll_seq rid b (poll_seq rid a st) := by
  induction a generalizing st with
  | nil => simp [poll_seq]
  | cons ora rest ih => simp [poll_seq, ih]

/-- Running `oras.length` polls that all stay strictly inside the plan
just moves the cursor forward, leaving everything else (status, caches,
database, other tasks) unchanged. -/
theorem poll_seq_run (rid : Nat) (oras : List Oracle) : ∀ (st : SysState) (t : Task),
    dictLookup st.tasks rid = some t → ¬ t.status = "complete" →
    t.step_index + oras.length < t.steps.length →
    poll_seq rid oras st =
      { st with tasks := dictInsert st.tasks rid { t with step_index := t.step_index + oras.length } } := by
  induction oras with
  | nil =>
    intro st t h hs hlt
    have ht : ({ t with step_index := t.step_index + ([] : List Oracle).length } : Task) = t := rfl
    rw [poll_seq, ht, dictInsert_eq_self h]
  | cons ora rest ih =>
    intro st t h hs hlt
    have hidx : t.step_index < t.steps.length := by
      simp [List.length_cons] at hlt; omega
    obtain ⟨step, hstep⟩ : ∃ step, t.steps[t.step_index]? = some step :=
      ⟨t.steps[t.step_index], List.getElem?_eq_getElem hidx⟩
    have hlt1 : t.step_index + 1 < t.steps.length := by
      simp [List.length_cons] at hlt; omega
    rw [poll_seq, poll_advance ora rid st t step h hs hstep hlt1]
    have hrest : ({ t with step_index := t.step_index + 1 } : Task).step_index + rest.length
        < ({ t with step_index := t.step_index + 1 } : Task).steps.length := by
      simp [List.length_cons] at hlt ⊢; omega
    rw [ih _ { t with step_index := t.step_index + 1 } (dictLookup_insert_self _ _ _) hs hrest]
    simp only [dictInsert_insert]
    have harith : t.step_index + 1 + rest.length = t.step_index + (ora :: rest).length := by
      simp [List.length_cons]; omega
    simp only [harith]

/-- Every step plan built by `submit_chat_request` is non-empty. -/
theorem task_steps_length_pos (s : String) : 0 < (task_steps s).length := by
  unfold task_steps
  split
  · simp
  · split
    · simp
    · split <;> simp

/-! ## C4: keyword classification priority -/

/-- C4: intent classification is the deterministic, case-insensitive
keyword-substring dispatch embedded in `classify_intent`, with priority
chart > map > rag > general; in particular a prompt containing both a
chart keyword and a map keyword classifies as chart intent. -/
theorem C4_chart_before_map (p : String)
    (hc : chart_keywords.any (fun k => strContains (lower p) k) = true)
    (hm : map_keywords.any (fun k => strContains (lower p) k) = true) :
    classify_intent p = "chart" := by
  unfold classify_intent
  simp [hc]

/-- Witness for C4: "Show SALES distribution map" contains the chart
keyword "sales" and the map keywords "map" / "distribution", and
classifies as chart. -/
theorem C4_chart_before_map_witness :
    chart_keywords.any (fun k => strContains (lower "Show SALES distribution map") k) = true ∧
    map_keywords.any (fun k => strContains (lower "Show SALES distribution map") k) = true ∧
    classify_intent "Show SALES distribution map" = "chart" :=
  ⟨by decide, by decide, C4_chart_before_map _ (by decide) (by decide)⟩

/-! ## C5: get_chat_result error and read-only behaviour -/

/-- C5: `get_chat_result` returns the invalid-id error for unknown ids,
the not-complete error for known tasks whose stored status is not
"complete", and the stored (previously synthesized) `final_result` for
completed tasks.  The function is a pure reader of the state, so it
modifies nothing and repeated calls return the same value. -/
theorem C5_get_result_contract (st : SysState) (rid : Nat) :
    (dictLookup st.tasks rid = none → get_chat_result st rid = ResultResp.invalidId) ∧
    (∀ t, dictLookup st.tasks rid = some t → t.status ≠ "complete" →
      get_chat_result st rid = ResultResp.notComplete) ∧
    (∀ t, dictLookup st.tasks rid = some t → t.status = "complete" →
      get_chat_result st rid = ResultResp.result t.final_result) := by
  refine ⟨fun h => by simp [get_chat_result, h], fun t h hne => by simp [get_chat_result, h, hne],
    fun t h hcc => by simp [get_chat_result, h, hcc]⟩

def demo_result : FinalResult := ⟨[Block.text "demo"], []⟩

def demo_pending_task : Task :=
  ⟨"pending", 0, "general", "hello", 0, task_steps "general", none⟩

def demo_complete_task : Task :=
  ⟨"complete", 2, "general", "hello", 0, task_steps "general", some demo_result⟩

def demo_pending_state : SysState := ⟨demo_db, [], [], [(0, demo_pending_task)]⟩

def demo_complete_state : SysState := ⟨demo_db, [], [], [(0, demo_complete_task)]⟩

/-- Witness for C5: the three branches at concrete states. -/
theorem C5_get_result_contract_witness :
    get_chat_result demo_state 0 = ResultResp.invalidId ∧
    get_chat_result demo_pending_state 0 = ResultResp.notComplete ∧
    get_chat_result demo_complete_state 0 = ResultResp.result (some demo_result) :=
  ⟨(C5_get_result_contract demo_state 0).1 (by decide),
   (C5_get_result_contract demo_pending_state 0).2.1 demo_pending_task (by decide) (by decide),
   (C5_get_result_contract demo_complete_state 0).2.2 demo_complete_task (by decide) (by decide)⟩

/-! ## C7: chart generation is total and fail-soft -/

/-- C7: `generate_universal_chart` is total by construction (it returns a
`ChartResult` on every input, never an error).  An unrecognized chart
type yields the non-empty placeholder figure titled "Unknown Chart Type";
for a line chart, a configured y-column absent from the data produces no
trace (the series is silently omitted); for a map chart, a missing
latitude column degrades to the empty spec instead of raising. -/
theorem C7_chart_fail_soft (ct : String) (data : Df) (cfg : ChartConfig) :
    (ct ≠ "line" → ct ≠ "map" →
      (generate_universal_chart ct data cfg).spec = ChartSpec.fig ⟨"Unknown Chart Type", []⟩ ∧
      (generate_universal_chart ct data cfg).spec ≠ ChartSpec.empty) ∧
    (∀ col, col ∈ cfg.y.getD [] → (col_names data).contains col = false →
      ∀ f, (generate_universal_chart "line" data cfg).spec = ChartSpec.fig f →
        ∀ x y, TraceData.scatter x y col ∉ f.traces) ∧
    ((col_names data).contains (cfg.lat.getD "lat") = false →
      (generate_universal_chart "map" data cfg).spec = ChartSpec.empty) := by
  refine ⟨fun h1 h2 => ?_, fun col hmem hcol f hf x y htr => ?_, fun hlat => ?_⟩
  · simp [generate_universal_chart, h1, h2]
  · have hline : (generate_universal_chart "line" data cfg).spec =
        ChartSpec.fig ⟨cfg.title.getD "Line Chart",
          ((cfg.y.getD []).filter (fun c =>
              (col_names data).contains c && (col_names data).contains (cfg.x.getD "Date"))).map
            (fun c => TraceData.scatter (col_values data (cfg.x.getD "Date")) (col_values data c) c)⟩ := by
      simp [generate_universal_chart]
    rw [hline] at hf
    cases hf
    simp only [List.mem_map] at htr
    obtain ⟨c, hcmem, hceq⟩ := htr
    have hname : c = col := by
      cases hceq
      rfl
    subst hname
    have hc1 := List.of_mem_filter hcmem
    rw [Bool.and_eq_true] at hc1
    rw [hcol] at hc1
    simp at hc1
  · have hlat2 : ¬ (cfg.lat.getD "lat") ∈ col_names data := by simpa using hlat
    simp [generate_universal_chart, hlat2]

/-- Witness for C7: an unknown chart type, a line config naming an absent
column, and a map call on data without a latitude column. -/
theorem C7_chart_fail_soft_witness :
    ((generate_universal_chart "bar" demo_db.sales
        ⟨none, none, some ["Product A"], none, none⟩).spec
      = ChartSpec.fig ⟨"Unknown Chart Type", []⟩ ∧
     (generate_universal_chart "bar" demo_db.sales
        ⟨none, none, some ["Product A"], none, none⟩).spec ≠ ChartSpec.empty) ∧
    (∀ f, (generate_universal_chart "line" demo_db.sales
        ⟨none, none, some ["Product Z"], none, none⟩).spec = ChartSpec.fig f →
      ∀ x y, TraceData.scatter x y "Product Z" ∉ f.traces) ∧
    (generate_universal_chart "map" demo_db.sales ⟨none, none, none, none, none⟩).spec
      = ChartSpec.empty :=
  ⟨(C7_chart_fail_soft "bar" demo_db.sales ⟨none, none, some ["Product A"], none, none⟩).1
      (by decide) (by decide),
   fun f hf x y => (C7_chart_fail_soft "line" demo_db.sales
      ⟨none, none, some ["Product Z"], none, none⟩).2.1 "Product Z" (by decide) (by decide) f hf x y,
   (C7_chart_fail_soft "map" demo_db.sales ⟨none, none, none, none, none⟩).2.2 (by decide)⟩

/-! ## C8: fetch_data cache idempotence and invalidation -/

/-- C8: two `fetch_data` calls with identical parameters and no
intervening Data Store change (the second call's update check reports no
change) return equal dataframes, and a detected Data Store change makes
the call bypass the cache and recompute from the fresh snapshot, whatever
the cache contains. -/
theorem C8_cache_roundtrip (upd1 : Option Db) (src : String) (cols : Option (List String))
    (f g a : String) (db : Db) (cache : List (String × Df)) :
    ((fetch_data none src cols f g a
        (fetch_data upd1 src cols f g a db cache).db
        (fetch_data upd1 src cols f g a db cache).dataCache).df
      = (fetch_data upd1 src cols f g a db cache).df) ∧
    (∀ newDb : Db, (fetch_data (some newDb) src cols f g a db cache).df
      = project_columns (source_frame newDb src) cols) := by
  constructor
  · cases upd1 with
    | none =>
      cases hl : dictLookup cache (cache_key src cols f g a) with
      | some cached => simp [fetch_data, hl]
      | none => simp [fetch_data, hl, dictLookup_insert_self]
    | some newDb => simp [fetch_data, dictLookup_insert_self]
  · intro newDb
    simp [fetch_data]

/-! ## C3: column projection (corrected) -/

/-- Counterexample to C3 as stated: requesting only the unknown column
"bogus" from the sales table on a cache miss returns the *full* dataframe
(all four sales columns), not the empty intersection of the requested and
available columns — `fetch_data` skips the projection when no requested
column matches. -/
theorem C3_counterexample :
    col_names (fetch_data none "sales_table" (some ["bogus"]) "None" "None" "None"
        demo_db []).df = ["Date", "Product A", "Product B", "Product C"] ∧
    ["bogus"].filter (fun c =>
        (col_names (source_frame demo_db "sales_table")).contains c) = [] ∧
    ¬ col_names (fetch_data none "sales_table" (some ["bogus"]) "None" "None" "None"
        demo_db []).df
      = ["bogus"].filter (fun c =>
        (col_names (source_frame demo_db "sales_table")).contains c) := by
  refine ⟨rfl, rfl, ?_⟩
  decide

/-- C3 (amended): on a miss or invalidation, when at least one requested
column exists in the source dataset, the returned columns are exactly the
requested columns that exist, in the requested order (unknown names
silently dropped); when the requested list is empty or matches nothing,
projection is skipped and the full source dataset is returned. -/
theorem C3_projection_amended (upd : Option Db) (src : String) (cs : List String)
    (f g a : String) (db : Db) (cache : List (String × Df))
    (hmiss : upd ≠ none ∨ dictLookup cache (cache_key src (some cs) f g a) = none) :
    ((cs.filter (fun c => (col_names (source_frame (upd.getD db) src)).contains c)) ≠ [] →
      col_names (fetch_data upd src (some cs) f g a db cache).df
        = cs.filter (fun c => (col_names (source_frame (upd.getD db) src)).contains c)) ∧
    ((cs.filter (fun c => (col_names (source_frame (upd.getD db) src)).contains c)) = [] →
      (fetch_data upd src (some cs) f g a db cache).df = source_frame (upd.getD db) src) := by
  have hsome : ∀ (dfr : Df),
      project_columns dfr (some cs) =
        if cs = [] then dfr
        else if cs.filter (fun c => (col_names dfr).contains c) = [] then dfr
        else (cs.filter (fun c => (col_names dfr).contains c)).map
          (fun c => (c, col_values dfr c)) := fun _ => rfl
  have hproj : ∀ dfr : Df,
      ((cs.filter (fun c => (col_names dfr).contains c)) ≠ [] →
        col_names (project_columns dfr (some cs))
          = cs.filter (fun c => (col_names dfr).contains c)) ∧
      ((cs.filter (fun c => (col_names dfr).contains c)) = [] →
        project_columns dfr (some cs) = dfr) := by
    intro dfr
    constructor
    · intro hne
      have hcs : cs ≠ [] := by
        intro hnil
        subst hnil
        simp at hne
      rw [hsome, if_neg hcs, if_neg hne]
      simp [col_names, List.map_map, Function.comp_def]
    · intro hnil
      by_cases hcs : cs = []
      · rw [hsome, if_pos hcs]
      · rw [hsome, if_neg hcs, if_pos hnil]
  cases upd with
  | some newDb =>
    have hfd : (fetch_data (some newDb) src (some cs) f g a db cache).df
        = project_columns (source_frame newDb src) (some cs) := by
      simp [fetch_data]
    simpa [hfd] using hproj (source_frame newDb src)
  | none =>
    have hl : dictLookup cache (cache_key src (some cs) f g a) = none := by
      rcases hmiss with h | h
      · exact absurd rfl h
      · exact h
    have hfd : (fetch_data none src (some cs) f g a db cache).df
        = project_columns (source_frame db src) (some cs) := by
      simp [fetch_data, hl]
    simpa [hfd] using hproj (source_frame db src)

/-- Witness for the amended C3: requesting ["Product B", "bogus"] returns
exactly the column "Product B"; requesting only ["bogus"] returns the
full sales dataframe. -/
theorem C3_projection_amended_witness :
    col_names (fetch_data none "sales_table" (some ["Product B", "bogus"]) "None" "None" "None"
        demo_db []).df
      = ["Product B", "bogus"].filter (fun c =>
          (col_names (source_frame ((none : Option Db).getD demo_db) "sales_table")).contains c) ∧
    (fetch_data none "sales_table" (some ["bogus"]) "None" "None" "None" demo_db []).df
      = source_frame ((none : Option Db).getD demo_db) "sales_table" :=
  ⟨(C3_projection_amended none "sales_table" ["Product B", "bogus"] "None" "None" "None"
      demo_db [] (Or.inr rfl)).1 (by decide),
   (C3_projection_amended none "sales_table" ["bogus"] "None" "None" "None"
      demo_db [] (Or.inr rfl)).2 (by decide)⟩

/-! ## C1: the two-phase completion handshake -/

/-- C1: polling a task whose cursor sits at the last step returns
`processing` with that last step's label, while in the same call the
stored status flips to "complete" and the final result is synthesized;
only a later call (`poll_chat_status` or `get_chat_result`) observes the
completion. -/
theorem C1_last_step_two_phase (ora : Oracle) (rid : Nat) (st : SysState) (t : Task)
    (h : dictLookup st.tasks rid = some t) (hp : t.status = "pending")
    (hlast : t.step_index + 1 = t.steps.length) :
    (∃ step, t.steps[t.step_index]? = some step ∧
      (poll_chat_status ora rid st).1 = ⟨"processing", step.icon ++ " " ++ step.msg⟩) ∧
    (∃ t', dictLookup (poll_chat_status ora rid st).2.tasks rid = some t' ∧
      t'.status = "complete" ∧ t'.final_result.isSome = true) ∧
    (∀ ora2, (poll_chat_status ora2 rid (poll_chat_status ora rid st).2).1
      = ⟨"complete", "Done"⟩) ∧
    (∃ r, get_chat_result (poll_chat_status ora rid st).2 rid
      = ResultResp.result (some r)) := by
  have hs : ¬ t.status = "complete" := by rw [hp]; decide
  have hidx : t.step_index < t.steps.length := by omega
  obtain ⟨step, hstep⟩ : ∃ step, t.steps[t.step_index]? = some step :=
    ⟨t.steps[t.step_index], List.getElem?_eq_getElem hidx⟩
  rw [poll_completes ora rid st t step h hs hstep hlast]
  refine ⟨⟨step, hstep, rfl⟩, ⟨_, dictLookup_insert_self _ _ _, rfl, rfl⟩, ?_, ?_⟩
  · intro ora2
    rw [poll_of_complete ora2 rid _ _ (dictLookup_insert_self _ _ _) rfl]
  · refine ⟨(build_result ora { t with step_index := t.step_index + 1, status := "complete" }
      st.db st.dataCache st.insightCache).res, ?_⟩
    simp [get_chat_result, dictLookup_insert_self]

def demo_last_task : Task :=
  ⟨"pending", 1, "general", "hello", 0, task_steps "general", none⟩

def demo_last_state : SysState := ⟨demo_db, [], [], [(5, demo_last_task)]⟩

/-- Witness for C1 at a concrete task sitting on the last step of the
general (2-step) plan. -/
theorem C1_last_step_two_phase_witness :
    (∃ step, demo_last_task.steps[demo_last_task.step_index]? = some step ∧
      (poll_chat_status demo_oracle 5 demo_last_state).1
        = ⟨"processing", step.icon ++ " " ++ step.msg⟩) ∧
    (∃ t', dictLookup (poll_chat_status demo_oracle 5 demo_last_state).2.tasks 5 = some t' ∧
      t'.status = "complete" ∧ t'.final_result.isSome = true) ∧
    (poll_chat_status demo_oracle 5 (poll_chat_status demo_oracle 5 demo_last_state).2).1
      = ⟨"complete", "Done"⟩ ∧
    (∃ r, get_chat_result (poll_chat_status demo_oracle 5 demo_last_state).2 5
      = ResultResp.result (some r)) :=
  ⟨(C1_last_step_two_phase demo_oracle 5 demo_last_state demo_last_task
      (by decide) (by decide) (by decide)).1,
   (C1_last_step_two_phase demo_oracle 5 demo_last_state demo_last_task
      (by decide) (by decide) (by decide)).2.1,
   (C1_last_step_two_phase demo_oracle 5 demo_last_state demo_last_task
      (by decide) (by decide) (by decide)).2.2.1 demo_oracle,
   (C1_last_step_two_phase demo_oracle 5 demo_last_state demo_last_task
      (by decide) (by decide) (by decide)).2.2.2⟩

/-! ## C6: completed tasks are frozen -/

/-- C6: once a task is complete, polling it returns the complete/Done
response and leaves the entire state unchanged (so repeated polls return the same
value), and neither a poll on another id nor a submission under a fresh
id (uuid freshness = the distinctness hypothesis) changes the completed
task's record.  `get_chat_result` takes no state output at all in this
embedding, i.e. it mutates nothing. -/
theorem C6_complete_immutable (st : SysState) (rid : Nat) (t : Task)
    (h : dictLookup st.tasks rid = some t) (hc : t.status = "complete") :
    (∀ ora, poll_chat_status ora rid st = (⟨"complete", "Done"⟩, st)) ∧
    (∀ ora rid2, rid ≠ rid2 →
      dictLookup (poll_chat_status ora rid2 st).2.tasks rid = some t) ∧
    (∀ now rid2 prompt chat_id user_id, rid ≠ rid2 →
      dictLookup (submit_chat_request now rid2 prompt chat_id user_id st).tasks rid = some t) := by
  refine ⟨fun ora => poll_of_complete ora rid st t h hc, fun ora rid2 hne => ?_,
    fun now rid2 p c u hne => ?_⟩
  · rw [poll_lookup_other ora rid2 st rid hne]
    exact h
  · have hsub : (submit_chat_request now rid2 p c u st).tasks
        = dictInsert st.tasks rid2
          (Task.mk "pending" 0 (classify_intent p) p now (task_steps (classify_intent p)) none) := rfl
    rw [hsub, dictLookup_insert_ne _ _ _ _ hne]
    exact h

/-- Witness for C6 at a concrete completed task. -/
theorem C6_complete_immutable_witness :
    poll_chat_status demo_oracle 0 demo_complete_state = (⟨"complete", "Done"⟩, demo_complete_state) ∧
    dictLookup (poll_chat_status demo_oracle 1 demo_complete_state).2.tasks 0
      = some demo_complete_task ∧
    dictLookup (submit_chat_request 0 1 "hi" "c" "u" demo_complete_state).tasks 0
      = some demo_complete_task :=
  ⟨(C6_complete_immutable demo_complete_state 0 demo_complete_task
      (by decide) (by decide)).1 demo_oracle,
   (C6_complete_immutable demo_complete_state 0 demo_complete_task
      (by decide) (by decide)).2.1 demo_oracle 1 (by decide),
   (C6_complete_immutable demo_complete_state 0 demo_complete_task
      (by decide) (by decide)).2.2 0 1 "hi" "c" "u" (by decide)⟩

/-! ## C10: the registry invariant -/

/-- The invariant C10 claims for every task in the registry: the stored
status is only ever "pending" or "complete" (never "processing"), the
status is "complete" exactly when the cursor has reached the plan length,
and the final result is present exactly when the task is complete. -/
def TaskOk (t : Task) : Prop :=
  (t.status = "pending" ∨ t.status = "complete") ∧
  t.step_index ≤ t.steps.length ∧
  (t.status = "complete" ↔ t.step_index = t.steps.length) ∧
  (t.final_result.isSome = true ↔ t.status = "complete")

instance (t : Task) : Decidable (TaskOk t) := by
  unfold TaskOk
  infer_instance

def AllTasksOk (st : SysState) : Prop := ∀ p ∈ st.tasks, TaskOk p.2

instance (st : SysState) : Decidable (AllTasksOk st) := by
  unfold AllTasksOk
  infer_instance

theorem allOk_insert {m : List (Nat × Task)} {k : Nat} {v : Task}
    (hm : ∀ p ∈ m, TaskOk p.2) (hv : TaskOk v) : ∀ p ∈ dictInsert m k v, TaskOk p.2 := by
  intro p hp
  rcases mem_dictInsert hp with h | h
  · rw [h]
    exact hv
  · exact hm p h

/-- C10: the registry invariant is preserved by `submit_chat_request` and
by `poll_chat_status` on any id.  `get_chat_result` returns no state in
the embedding (it is a pure reader), so it preserves the invariant
vacuously. -/
theorem C10_registry_invariant (st : SysState) (now rid rid2 : Nat)
    (prompt chat_id user_id : String) (ora : Oracle) (hok : AllTasksOk st) :
    AllTasksOk (submit_chat_request now rid prompt chat_id user_id st) ∧
    AllTasksOk (poll_chat_status ora rid2 st).2 := by
  have hpc : ¬ ("pending" : String) = "complete" := by decide
  constructor
  · intro p hp
    refine allOk_insert hok ?_ p hp
    unfold TaskOk
    refine ⟨Or.inl rfl, Nat.zero_le _, ?_, ?_⟩
    · exact ⟨fun hcc => absurd hcc hpc,
        fun h0 => absurd h0.symm (Nat.ne_of_gt (task_steps_length_pos _))⟩
    · exact ⟨fun hcc => absurd hcc Bool.false_ne_true, fun hcc => absurd hcc hpc⟩
  · cases hl : dictLookup st.tasks rid2 with
    | none =>
      rw [poll_of_unknown ora rid2 st hl]
      exact hok
    | some t =>
      have ht : TaskOk t := hok _ (mem_of_dictLookup hl)
      by_cases hc : t.status = "complete"
      · rw [poll_of_complete ora rid2 st t hl hc]
        exact hok
      · have hpend : t.status = "pending" := ht.1.resolve_right hc
        have hnelen : t.step_index ≠ t.steps.length := fun he => hc (ht.2.2.1.mpr he)
        have hidx : t.step_index < t.steps.length := lt_of_le_of_ne ht.2.1 hnelen
        obtain ⟨step, hstep⟩ : ∃ s, t.steps[t.step_index]? = some s :=
          ⟨t.steps[t.step_index], List.getElem?_eq_getElem hidx⟩
        by_cases hf : t.step_index + 1 = t.steps.length
        · rw [poll_completes ora rid2 st t step hl hc hstep hf]
          intro p hp
          refine allOk_insert hok ?_ p hp
          unfold TaskOk
          exact ⟨Or.inr rfl, le_of_eq hf, ⟨fun _ => hf, fun _ => rfl⟩, ⟨fun _ => rfl, fun _ => rfl⟩⟩
        · have hlt : t.step_index + 1 < t.steps.length := lt_of_le_of_ne hidx hf
          rw [poll_advance ora rid2 st t step hl hc hstep hlt]
          intro p hp
          refine allOk_insert hok ?_ p hp
          unfold TaskOk
          exact ⟨Or.inl hpend, le_of_lt hlt,
            ⟨fun hcc => absurd hcc hc, fun he => absurd he hf⟩, ht.2.2.2⟩

/-! ## C2: completion after exactly plan-length polls -/

/-- Running exactly the number of polls that exhausts the remaining plan
of a not-yet-complete task leaves the task complete. -/
theorem poll_seq_complete (rid : Nat) : ∀ (oras : List Oracle) (st : SysState) (t : Task),
    dictLookup st.tasks rid = some t → ¬ t.status = "complete" →
    t.step_index + oras.length = t.steps.length → oras ≠ [] →
    task_status (poll_seq rid oras st) rid = some "complete" := by
  intro oras
  induction oras with
  | nil => intro st t h hs hlen hne; exact absurd rfl hne
  | cons ora rest ih =>
    intro st t h hs hlen hne
    have hidx : t.step_index < t.steps.length := by
      simp [List.length_cons] at hlen
      omega
    obtain ⟨step, hstep⟩ : ∃ s, t.steps[t.step_index]? = some s :=
      ⟨t.steps[t.step_index], List.getElem?_eq_getElem hidx⟩
    by_cases hrest : rest = []
    · subst hrest
      have hlast : t.step_index + 1 = t.steps.length := by
        simp [List.length_cons] at hlen
        omega
      rw [show poll_seq rid [ora] st = (poll_chat_status ora rid st).2 from rfl]
      rw [poll_completes ora rid st t step h hs hstep hlast]
      simp [task_status, dictLookup_insert_self]
    · have hlt : t.step_index + 1 < t.steps.length := by
        have : 0 < rest.length := List.length_pos.mpr hrest
        simp [List.length_cons] at hlen
        omega
      rw [show poll_seq rid (ora :: rest) st
        = poll_seq rid rest (poll_chat_status ora rid st).2 from rfl]
      rw [poll_advance ora rid st t step h hs hstep hlt]
      refine ih _ { t with step_index := t.step_index + 1 }
        (dictLookup_insert_self _ _ _) hs ?_ hrest
      simp [List.length_cons] at hlen ⊢
      omega

/-- The fresh task record `submit_chat_request` registers. -/
def submitted_task (prompt : String) (now : Nat) : Task :=
  Task.mk "pending" 0 (classify_intent prompt) prompt now
    (task_steps (classify_intent prompt)) none

/-- C2: submitting any prompt creates a task that is still pending after
any fewer than plan-length polls and is complete after exactly
plan-length polls; the plan length is the deterministic function
`task_steps ∘ classify_intent` of the prompt, with 5 steps for chart and
map intent, 4 for rag and 2 for general. -/
theorem C2_completes_after_plan_length (prompt chat_id user_id : String) (now rid : Nat)
    (st : SysState) (oras : List Oracle) :
    (oras.length < (task_steps (classify_intent prompt)).length →
      task_status (poll_seq rid oras (submit_chat_request now rid prompt chat_id user_id st)) rid
        = some "pending") ∧
    (oras.length = (task_steps (classify_intent prompt)).length →
      task_status (poll_seq rid oras (submit_chat_request now rid prompt chat_id user_id st)) rid
        = some "complete") ∧
    (task_steps "chart").length = 5 ∧ (task_steps "map").length = 5 ∧
    (task_steps "rag").length = 4 ∧ (task_steps "general").length = 2 := by
  have h0 : dictLookup (submit_chat_request now rid prompt chat_id user_id st).tasks rid
      = some (submitted_task prompt now) := dictLookup_insert_self st.tasks rid _
  have hs0 : ¬ (submitted_task prompt now).status = "complete" :=
    fun hcc => absurd hcc (by decide : ¬ ("pending" : String) = "complete")
  refine ⟨?_, ?_, by decide, by decide, by decide, by decide⟩
  · intro hlen
    rw [poll_seq_run rid oras _ _ h0 hs0 (by simpa [submitted_task] using hlen)]
    simp [task_status, dictLookup_insert_self]
    rfl
  · intro hlen
    have hne : oras ≠ [] := by
      intro hnil
      rw [hnil] at hlen
      have := task_steps_length_pos (classify_intent prompt)
      simp at hlen
      omega
    exact poll_seq_complete rid oras _ _ h0 hs0 (by simpa [submitted_task] using hlen) hne

/-- Witness for C2: the prompt "hello" classifies as general (2-step
plan); after one poll the task is pending, after two it is complete. -/
theorem C2_completes_after_plan_length_witness :
    task_status (poll_seq 0 [demo_oracle]
      (submit_chat_request 0 0 "hello" "c" "u" demo_state)) 0 = some "pending" ∧
    task_status (poll_seq 0 [demo_oracle, demo_oracle]
      (submit_chat_request 0 0 "hello" "c" "u" demo_state)) 0 = some "complete" :=
  ⟨(C2_completes_after_plan_length "hello" "c" "u" 0 0 demo_state [demo_oracle]).1 (by decide),
   (C2_completes_after_plan_length "hello" "c" "u" 0 0 demo_state
      [demo_oracle, demo_oracle]).2.1 (by decide)⟩

/-! ## C9: the chart scenario -/

theorem poll_seq_one (rid : Nat) (ora : Oracle) (st : SysState) :
    poll_seq rid [ora] st = (poll_chat_status ora rid st).2 := rfl

/-- Lemma: `generate_chart_insight` never returns the empty string as long as
every insight already cached is non-empty (the canned insights are all
non-empty). -/
theorem insight_nonempty (key ct : String) (ic : List (String × String))
    (hic : ∀ p ∈ ic, ¬ p.2 = "") : ¬ (generate_chart_insight key ct ic).1 = "" := by
  unfold generate_chart_insight
  cases hl : dictLookup ic key with
  | some v =>
    simpa using hic (key, v) (mem_of_dictLookup hl)
  | none =>
    by_cases h1 : ct = "line"
    · simp [h1]
    · by_cases h2 : ct = "map" <;> simp [h1, h2]

/-- C9: submitting "Show this week's product trends" classifies as chart
intent with a 5-step plan; after the five polls that complete it, the
final result's block list is exactly a text block, one plotly block with
a non-empty insight, and a text block. -/
theorem C9_trend_scenario (st : SysState) (now rid : Nat) (chat_id user_id : String)
    (o1 o2 o3 o4 o5 : Oracle) (hic : ∀ p ∈ st.insightCache, ¬ p.2 = "") :
    classify_intent "Show this week's product trends" = "chart" ∧
    (task_steps (classify_intent "Show this week's product trends")).length = 5 ∧
    (∃ t r c1 sp ins c2,
      dictLookup (poll_seq rid [o1, o2, o3, o4, o5]
        (submit_chat_request now rid "Show this week's product trends" chat_id user_id st)).tasks
        rid = some t ∧
      t.status = "complete" ∧ t.final_result = some r ∧
      r.blocks = [Block.text c1, Block.plotly sp ins, Block.text c2] ∧ ¬ ins = "") := by
  refine ⟨by decide, by decide, ?_⟩
  have h0 : dictLookup (submit_chat_request now rid "Show this week's product trends"
        chat_id user_id st).tasks rid
      = some (submitted_task "Show this week's product trends" now) :=
    dictLookup_insert_self st.tasks rid _
  have hs0 : ¬ (submitted_task "Show this week's product trends" now).status = "complete" :=
    fun hcc => absurd hcc (by decide : ¬ ("pending" : String) = "complete")
  rw [show ([o1, o2, o3, o4, o5] : List Oracle) = [o1, o2, o3, o4] ++ [o5] from rfl,
    poll_seq_append]
  rw [poll_seq_run rid [o1, o2, o3, o4] _ _ h0 hs0 (by
    show 0 + 4 < (task_steps (classify_intent "Show this week's product trends")).length
    decide)]
  rw [poll_seq_one]
  rw [poll_completes o5 rid _
    { submitted_task "Show this week's product trends" now with step_index := 0 + 4 }
    ⟨"🧠", "Requesting Chart Insight [Caching enabled]...", 5⟩
    (dictLookup_insert_self _ _ _)
    (fun hcc => absurd hcc (by decide : ¬ ("pending" : String) = "complete"))
    rfl rfl]
  refine ⟨_, _, _, _, _, _, dictLookup_insert_self _ _ _, rfl, rfl, rfl, ?_⟩
  exact insight_nonempty _ "line" st.insightCache hic

/-- Witness for C9: the scenario run from the demo state with empty
caches. -/
theorem C9_trend_scenario_witness :
    classify_intent "Show this week's product trends" = "chart" ∧
    (task_steps (classify_intent "Show this week's product trends")).length = 5 ∧
    (∃ t r c1 sp ins c2,
      dictLookup (poll_seq 0 [demo_oracle, demo_oracle, demo_oracle, demo_oracle, demo_oracle]
        (submit_chat_request 0 0 "Show this week's product trends" "c" "u" demo_state)).tasks
        0 = some t ∧
      t.status = "complete" ∧ t.final_result = some r ∧
      r.blocks = [Block.text c1, Block.plotly sp ins, Block.text c2] ∧ ¬ ins = "") :=
  C9_trend_scenario demo_state 0 0 "c" "u" demo_oracle demo_oracle demo_oracle demo_oracle
    demo_oracle (by intro p hp; simp [demo_state] at hp)

/-- Witness for C10: the empty registry satisfies the invariant, and it
is preserved across a submit and a poll. -/
theorem C10_registry_invariant_witness :
    AllTasksOk demo_state ∧
    AllTasksOk (submit_chat_request 0 0 "hello" "c" "u" demo_state) ∧
    AllTasksOk (poll_chat_status demo_oracle 0 demo_state).2 :=
  ⟨by decide,
   (C10_registry_invariant demo_state 0 0 0 "hello" "c" "u" demo_oracle (by decide)).1,
   (C10_registry_invariant demo_state 0 0 0 "hello" "c" "u" demo_oracle (by decide)).2⟩

end XChat
